import Mathlib

/-!
Verification development for the scaffolding tool in `src/lib.rs`
(scaffold resolution and rendering pipeline).

The Rust code is shallowly embedded: pure functions become Lean
functions, filesystem state becomes an explicit map from paths to file
contents, and the external collaborators (the Tera template engine, the
git repository provider, the process runner for hook scripts) are
modelled by a small concrete substitution engine and by explicit
parameters recording the outcome of the external calls.
-/

namespace Scaficionado

/-! ## Defaults (lib.rs lines 14-17) -/

def DEFAULT_PROJECT_NAME : String := "MyExampleProject"

def DEFAULT_OUTPUT : String := "generated"

def DEFAULT_OVERWRITE : Bool := false

/-! ## String primitives

Rust's `str::starts_with`, `str::ends_with` and byte slicing are
modelled on the character list underlying a `String`, so that every
definition evaluates by kernel reduction. -/

def strStartsWith (s p : String) : Bool := p.data.isPrefixOf s.data

def strEndsWith (s p : String) : Bool := p.data.isSuffixOf s.data

def strDrop (s : String) (n : Nat) : String := String.mk (s.data.drop n)

def strLength (s : String) : Nat := s.data.length

/-! ## Data structures (lib.rs lines 186-231)

`toml::Value` is modelled by the scalar shapes the tool manipulates. -/

inductive Value where
  | str (s : String)
  | int (n : Int)
  | bool (b : Bool)
deriving DecidableEq

/-- String form of a value as the template engine writes it into
rendered output. -/
def Value.render : Value → String
  | .str s => s
  | .int n => toString n
  | .bool b => if b then "true" else "false"

structure TemplateFile where
  src : String
  dest : String
deriving DecidableEq

structure TemplateConfig where
  files : List TemplateFile
deriving DecidableEq

structure HooksConfig where
  pre : Option String
  post : Option String
deriving DecidableEq

structure Scaffold where
  name : Option String
  repo : String
  template_dir : Option String
  template : TemplateConfig
  hooks : Option HooksConfig
  vars : Option (List (String × Value))
deriving DecidableEq

structure ProjectConfig where
  name : Option String
  output : Option String
  overwrite : Option Bool
deriving DecidableEq

structure Config where
  project : Option ProjectConfig
  scaffolds : List Scaffold
deriving DecidableEq

/-- Command line arguments (lib.rs lines 61-77); clap fills every field,
using the built-in default when the flag is not supplied. -/
structure Args where
  project_name : String
  output : String
  config : String
  overwrite : Bool
deriving DecidableEq

/-! ## Template engine model (tera)

Tera templates are sequences of literal text and placeholders: a
variable name wrapped in double opening and closing braces.  A parsed template is a token list; rendering substitutes
the variable context, failing on a variable that the context does not
contain (Tera's default behaviour).  The context is an association list
where a later insert shadows an earlier one, matching `tera::Context`'s
map-overwrite semantics. -/

inductive Tok where
  | lit (s : String)
  | var (v : String)
deriving DecidableEq

abbrev Ctx := List (String × Value)

def Ctx.new : Ctx := []

/-- Insert overwrites any earlier binding of the same name (map
semantics); with first-match lookup, consing achieves exactly that. -/
def Ctx.insert (k : String) (v : Value) (c : Ctx) : Ctx := (k, v) :: c

def Ctx.lookup (k : String) : Ctx → Option Value
  | [] => none
  | (k1, v) :: rest => if k1 = k then some v else Ctx.lookup k rest

/-- Trim the spaces around a placeholder name. -/
def trimName (cs : List Char) : String :=
  String.mk (((cs.dropWhile (· = ' ')).reverse.dropWhile (· = ' ')).reverse)

/-- Prepend a literal token built from the accumulated characters,
dropping it when empty. -/
def consLit (buf : List Char) (ts : List Tok) : List Tok :=
  if buf.isEmpty then ts else Tok.lit (String.mk buf) :: ts

/-- Tokenize a template: the Bool is true while inside a placeholder,
`buf` accumulates the current literal or the current placeholder name. -/
def parseAux : Bool → List Char → List Char → Except String (List Tok)
  | false, buf, [] => .ok (consLit buf [])
  | false, buf, '\x7b' :: '\x7b' :: rest =>
      (parseAux true [] rest).map (fun ts => consLit buf ts)
  | false, buf, c :: rest => parseAux false (buf ++ [c]) rest
  | true, buf, '\x7d' :: '\x7d' :: rest =>
      (parseAux false [] rest).map (fun ts => Tok.var (trimName buf) :: ts)
  | true, _, [] => .error "unclosed variable block"
  | true, buf, c :: rest => parseAux true (buf ++ [c]) rest

def parseTemplate (s : String) : Except String (List Tok) :=
  parseAux false [] s.data

/-- Render a parsed template against a context; a missing variable is a
render error. -/
def renderToks : List Tok → Ctx → Except String String
  | [], _ => .ok ""
  | .lit s :: rest, c => (renderToks rest c).map (fun t => s ++ t)
  | .var v :: rest, c =>
      match Ctx.lookup v c with
      | none => .error ("Variable `" ++ v ++ "` not found in context")
      | some val => (renderToks rest c).map (fun t => Value.render val ++ t)

/-- Model of `Tera::one_off`: parse the inline template and render it
against the context (used for destination-path substitution,
lib.rs line 272). -/
def one_off (tmpl : String) (c : Ctx) : Except String String :=
  match parseTemplate tmpl with
  | .error e => .error e
  | .ok ts => renderToks ts c

/-! ## Filesystem model

A filesystem maps full paths to file contents (bytes as `String`). -/

def FS := String → Option String

def FS.empty : FS := fun _ => none

def FS.update (fs : FS) (p c : String) : FS :=
  fun q => if q = p then some c else fs q

def pathJoin (a b : String) : String := a ++ "/" ++ b

/-! ## Utility functions (lib.rs lines 85-110) -/

/-- lib.rs lines 85-87. -/
def is_local_repo (repo_url : String) : Bool :=
  !(strStartsWith repo_url "http://") && !(strStartsWith repo_url "https://")
    && !(strStartsWith repo_url "git://")

/-! ## Settings precedence (lib.rs lines 114-171) -/

/-- lib.rs lines 114-148: copy each CLI value into the configuration
when it differs from the built-in default (pure rendition of the
in-place mutation). -/
def overwrite_project_settings_with_args (args : Args) (config : Config) : Config :=
  let config :=
    if args.project_name ≠ DEFAULT_PROJECT_NAME then
      match config.project with
      | some p => { config with project := some { p with name := some args.project_name } }
      | none => { config with project := some ⟨some args.project_name, none, none⟩ }
    else config
  let config :=
    if args.output ≠ DEFAULT_OUTPUT then
      match config.project with
      | some p => { config with project := some { p with output := some args.output } }
      | none => { config with project := some ⟨none, some args.output, none⟩ }
    else config
  if args.overwrite ≠ DEFAULT_OVERWRITE then
    match config.project with
    | some p => { config with project := some { p with overwrite := some args.overwrite } }
    | none => { config with project := some ⟨none, none, some args.overwrite⟩ }
  else config

/-- lib.rs lines 151-157. -/
def get_project_name (args : Args) (config : Config) : String :=
  ((config.project.bind fun proj => proj.name).getD args.project_name)

/-- lib.rs lines 160-166. -/
def get_output_directory (args : Args) (config : Config) : String :=
  ((config.project.bind fun proj => proj.output).getD args.output)

/-- lib.rs lines 169-171. -/
def get_overwrite (args : Args) (config : Config) : Bool :=
  ((config.project.bind fun proj => proj.overwrite).getD args.overwrite)

/-- Effective (project name, output, overwrite) of a run, as computed by
`run` at lib.rs lines 30-35: the CLI values are first merged into the
configuration, then the getters read the result. -/
def effectiveSettings (args : Args) (config : Config) : String × String × Bool :=
  let config := overwrite_project_settings_with_args args config
  (get_project_name args config, get_output_directory args config,
    get_overwrite args config)

/-! ## Template rendering (lib.rs lines 247-305) -/

/-- Registration key for a template entry (lib.rs lines 260-264). -/
def registrationKey (src : String) : String :=
  if strStartsWith src "templates/" then strDrop src (strLength "templates/") else src

/-- Render-time key for a template entry (lib.rs lines 291-295, the
second, duplicated computation). -/
def renderKey (src : String) : String :=
  if strStartsWith src "templates/" then strDrop src (strLength "templates/") else src

def lookupStore (k : String) : List (String × List Tok) → Option (List Tok)
  | [] => none
  | (k1, ts) :: rest => if k1 = k then some ts else lookupStore k rest

/-- Registration loop (lib.rs lines 258-268): every `.tera` entry's
source file is read from the templates directory and parsed; a missing
file or a syntax error aborts registration. -/
def addTemplates (srcFS : FS) (templatesDir : String) :
    List TemplateFile → Except String (List (String × List Tok))
  | [] => .ok []
  | f :: rest =>
    if strEndsWith f.src ".tera" then
      match srcFS (pathJoin templatesDir f.src) with
      | none => .error ("template file not found: " ++ f.src)
      | some content =>
        match parseTemplate content with
        | .error e => .error e
        | .ok toks =>
          (addTemplates srcFS templatesDir rest).map
            (fun ts => (registrationKey f.src, toks) :: ts)
    else addTemplates srcFS templatesDir rest

/-- Body of the per-entry loop (lib.rs lines 271-302): resolve the
destination via `one_off`, apply the overwrite policy, then render the
registered template or copy the source bytes verbatim. -/
def processEntry (srcFS : FS) (store : List (String × List Tok))
    (templatesDir outputBase : String) (ctx : Ctx) (overwrite : Bool)
    (fs : FS) (f : TemplateFile) : Except String FS :=
  match one_off f.dest ctx with
  | .error e => .error e
  | .ok destRel =>
    let destPath := pathJoin outputBase destRel
    if (fs destPath).isSome && !overwrite then .ok fs
    else
      if strEndsWith f.src ".tera" then
        match lookupStore (renderKey f.src) store with
        | none => .error ("Template `" ++ renderKey f.src ++ "` not found")
        | some toks =>
          match renderToks toks ctx with
          | .error e => .error e
          | .ok rendered => .ok (fs.update destPath rendered)
      else
        match srcFS (pathJoin templatesDir f.src) with
        | none => .error ("copy source not found: " ++ f.src)
        | some content => .ok (fs.update destPath content)

/-- The per-entry loop itself: the first failing entry aborts the
remaining entries, leaving the filesystem as it was after the previous
entry. -/
def processFiles (srcFS : FS) (store : List (String × List Tok))
    (templatesDir outputBase : String) (ctx : Ctx) (overwrite : Bool)
    (fs : FS) : List TemplateFile → FS × Option String
  | [] => (fs, none)
  | f :: rest =>
    match processEntry srcFS store templatesDir outputBase ctx overwrite fs f with
    | .error e => (fs, some e)
    | .ok fs1 => processFiles srcFS store templatesDir outputBase ctx overwrite fs1 rest

/-- lib.rs lines 247-305: register all `.tera` templates, then process
every file entry in declaration order.  Returns the final filesystem
and the first error, if any. -/
def render_templates (srcFS : FS) (templatesDir outputBase : String)
    (scaffold : Scaffold) (ctx : Ctx) (overwrite : Bool) (fs : FS) :
    FS × Option String :=
  match addTemplates srcFS templatesDir scaffold.template.files with
  | .error e => (fs, some e)
  | .ok store =>
    processFiles srcFS store templatesDir outputBase ctx overwrite fs
      scaffold.template.files

/-! ## Scaffold processing (lib.rs lines 313-376) -/

/-- Outcomes of the external collaborators during one scaffold:
`canonicalize` is `fs::canonicalize` on a local repo path, `tempRoot`
is the fresh directory `TempDir::new()` allocates, `cloneOk` records
whether `Repository::clone` succeeded, and `hookRuns` records the exit
status (success flag) of each hook script path. -/
structure Ext where
  canonicalize : String → Except String String
  tempRoot : String
  cloneOk : Bool
  hookRuns : String → Bool

/-- Variable context set-up (lib.rs lines 341-348): `project_name`
first, then every declared variable. -/
def buildContext (project_name : String) (vars : Option (List (String × Value))) : Ctx :=
  let ctx := Ctx.insert "project_name" (Value.str project_name) Ctx.new
  match vars with
  | none => ctx
  | some vars => vars.foldl (fun c kv => Ctx.insert kv.1 kv.2 c) ctx

/-- lib.rs lines 313-376, in the code's order: resolve the source
(canonicalize or clone into `tempRoot/<name>`), build the context,
render the templates, run the pre hook, run the post hook, and for a
remote repo return the cloned subdirectory `tempRoot/<name>` for later
cleanup.  Returns the final filesystem together with the result. -/
def process_scaffold (ext : Ext) (srcFS : FS) (scaffold : Scaffold)
    (project_name output_base : String) (overwrite : Bool) (fs : FS) :
    FS × Except String (Option String) :=
  let resolved : Except String String :=
    if is_local_repo scaffold.repo then ext.canonicalize scaffold.repo
    else if ext.cloneOk then
      .ok (pathJoin ext.tempRoot (scaffold.name.getD "unnamed"))
    else .error "clone failed"
  match resolved with
  | .error e => (fs, .error e)
  | .ok scaffold_repo_base =>
    let templates_dir := pathJoin scaffold_repo_base (scaffold.template_dir.getD "templates")
    let context := buildContext project_name scaffold.vars
    match render_templates srcFS templates_dir output_base scaffold context overwrite fs with
    | (fs1, some e) => (fs1, .error e)
    | (fs1, none) =>
      let preOk :=
        match scaffold.hooks with
        | some hooks =>
          match hooks.pre with
          | some pre => ext.hookRuns (pathJoin scaffold_repo_base pre)
          | none => true
        | none => true
      if preOk then
        let postOk :=
          match scaffold.hooks with
          | some hooks =>
            match hooks.post with
            | some post => ext.hookRuns (pathJoin scaffold_repo_base post)
            | none => true
          | none => true
        if postOk then
          (fs1, .ok (if is_local_repo scaffold.repo then none else some scaffold_repo_base))
        else (fs1, .error "Hook script failed")
      else (fs1, .error "Hook script failed")

/-! ## Cleanup and the run loop (lib.rs lines 23-53 and 174-180)

Directories on disk are modelled as a list of paths;
`fs::remove_dir_all` removes a directory and everything below it, and
fails when the directory does not exist. -/

def remove_dir_all (disk : List String) (d : String) : Except String (List String) :=
  if disk.contains d then
    .ok (disk.filter (fun p => !(p == d || strStartsWith p (d ++ "/"))))
  else .error ("no such directory: " ++ d)

/-- lib.rs lines 174-180: remove each recorded directory in turn; the
first removal error aborts the loop. -/
def clean_up_persistent_dirs (disk : List String) :
    List String → List String × Option String
  | [] => (disk, none)
  | d :: rest =>
    match remove_dir_all disk d with
    | .error e => (disk, some e)
    | .ok disk1 => clean_up_persistent_dirs disk1 rest

/-- The scaffold loop of `run` (lib.rs lines 41-47), abstracted over
the per-scaffold outcomes: `.ok (some d)` means the scaffold succeeded
and recorded the disposable directory `d` (created on disk by the
clone), `.ok none` a successful local scaffold, `.error e` a failure
that `?` propagates immediately. -/
def run_loop (disk acc : List String) :
    List (Except String (Option String)) → List String × Except String (List String)
  | [] => (disk, .ok acc)
  | o :: os =>
    match o with
    | .error e => (disk, .error e)
    | .ok none => run_loop disk acc os
    | .ok (some d) => run_loop (d :: disk) (acc ++ [d]) os

/-- lib.rs lines 41-52: process every scaffold, then clean up the
recorded disposable directories; a scaffold error returns immediately,
skipping cleanup. -/
def run (outcomes : List (Except String (Option String))) (disk : List String) :
    List String × Except String Unit :=
  match run_loop disk [] outcomes with
  | (disk1, .error e) => (disk1, .error e)
  | (disk1, .ok dirs) =>
    match clean_up_persistent_dirs disk1 dirs with
    | (disk2, some e) => (disk2, .error e)
    | (disk2, none) => (disk2, .ok ())

/-! ## Concrete inputs used in the theorems below -/

deriving instance DecidableEq for Except

/-- External outcomes for a local scaffold whose hook scripts all fail. -/
def extHookFail : Ext := ⟨fun _ => .ok "/repo", "/tmp/t", true, fun _ => false⟩

/-- Source tree holding one plain (non-template) file. -/
def srcFSPayload : FS :=
  fun p => if p = "/repo/templates/data.txt" then some "payload" else none

/-- Local scaffold with one copy entry and a pre hook. -/
def scaffoldPre : Scaffold :=
  ⟨some "S", "local/repo", none, ⟨[⟨"data.txt", "data.txt"⟩]⟩,
    some ⟨some "pre.sh", none⟩, none⟩

/-- External outcomes for a remote scaffold: the clone succeeds into the
fresh temporary root `/tmp/t`. -/
def extRemote : Ext := ⟨fun _ => .error "not a local repo", "/tmp/t", true, fun _ => true⟩

/-- Remote scaffold named `s` with no file entries and no hooks. -/
def scaffoldRemote : Scaffold :=
  ⟨some "s", "https://example.com/r.git", none, ⟨[]⟩, none, none⟩

/-- CLI arguments that supply a project name differing from the built-in
default (the other flags keep their defaults). -/
def argsCli : Args := ⟨"CLIProject", "generated", "scaffolding.toml", false⟩

/-- Configuration that sets the project name. -/
def configNamed : Config := ⟨some ⟨some "ConfigProject", none, none⟩, []⟩

/-- Source tree whose only template file has a syntax error (an
unclosed variable block). -/
def srcFSBroken : FS :=
  fun p => if p = "/r/templates/broken.tera" then some "\x7b\x7b oops" else none

/-- Scaffold declaring the malformed template entry. -/
def scaffoldBroken : Scaffold :=
  ⟨some "B", "local", none, ⟨[⟨"broken.tera", "broken.txt"⟩]⟩, none, none⟩

/-- Destination template carrying two distinct placeholders wrapped in
literal text. -/
def destTwoVars : String := "pre\x7b\x7b x \x7d\x7d-\x7b\x7b y \x7d\x7dpost"

/-- Source tree with one plain file whose content contains a
placeholder-like substring, and one template file. -/
def srcFSMixed : FS := fun p =>
  if p = "/repo/templates/notes.txt" then some "dear \x7b\x7b project_name \x7d\x7d"
  else if p = "/repo/templates/greet.tera" then some "hi \x7b\x7b project_name \x7d\x7d"
  else none

/-! ## Theorems -/

theorem fs_update_preserves {fs : FS} {p c q d : String} (hq : fs q = some d)
    (hp : fs p = none) : FS.update fs p c q = some d := by
  have hne : q ≠ p := by
    intro h
    rw [h, hp] at hq
    cases hq
  simp [FS.update, hne, hq]

theorem processEntry_no_overwrite_preserves (srcFS : FS)
    (store : List (String × List Tok)) (tdir obase : String) (ctx : Ctx)
    (fs fs1 : FS) (f : TemplateFile)
    (h : processEntry srcFS store tdir obase ctx false fs f = Except.ok fs1)
    (p c : String) (hp : fs p = some c) : fs1 p = some c := by
  unfold processEntry at h
  split at h
  · cases h
  next destRel ho =>
    by_cases hex : (fs (pathJoin obase destRel)).isSome
    · simp [hex] at h
      rw [← h]
      exact hp
    · have hnone : fs (pathJoin obase destRel) = none := by
        cases hfd : fs (pathJoin obase destRel) with
        | none => rfl
        | some x => rw [hfd] at hex; simp at hex
      simp [hex] at h
      split at h
      · split at h
        · cases h
        · split at h
          · cases h
          · injection h with h1
            rw [← h1]
            exact fs_update_preserves hp hnone
      · split at h
        · cases h
        · injection h with h1
          rw [← h1]
          exact fs_update_preserves hp hnone

theorem processFiles_no_overwrite_preserves (srcFS : FS)
    (store : List (String × List Tok)) (tdir obase : String) (ctx : Ctx) :
    ∀ (files : List TemplateFile) (fs : FS) (p c : String), fs p = some c →
      (processFiles srcFS store tdir obase ctx false fs files).1 p = some c := by
  intro files
  induction files with
  | nil => intro fs p c hp; exact hp
  | cons f rest ih =>
    intro fs p c hp
    unfold processFiles
    split
    · exact hp
    next fs1 hok =>
      exact ih fs1 p c
        (processEntry_no_overwrite_preserves srcFS store tdir obase ctx fs fs1 f hok p c hp)

theorem render_templates_no_overwrite_preserves (srcFS : FS)
    (tdir obase : String) (scaffold : Scaffold) (ctx : Ctx) (fs : FS)
    (p c : String) (hp : fs p = some c) :
    (render_templates srcFS tdir obase scaffold ctx false fs).1 p = some c := by
  unfold render_templates
  split
  · exact hp
  · exact processFiles_no_overwrite_preserves srcFS _ tdir obase ctx
      scaffold.template.files fs p c hp

/-- C4: with `overwrite = false`, a file entry whose resolved
destination already exists is skipped entirely — the entry returns the
filesystem unchanged and raises no error — and consequently a whole
render run with `overwrite = false` leaves every already-existing
destination file (a manually edited one included) byte-identical. -/
theorem C4_no_overwrite_skips_and_preserves :
    (∀ (srcFS : FS) (store : List (String × List Tok)) (tdir obase : String)
        (ctx : Ctx) (fs : FS) (f : TemplateFile) (destRel : String),
      one_off f.dest ctx = Except.ok destRel →
      (fs (pathJoin obase destRel)).isSome = true →
      processEntry srcFS store tdir obase ctx false fs f = Except.ok fs)
    ∧ (∀ (srcFS : FS) (tdir obase : String) (scaffold : Scaffold) (ctx : Ctx)
        (fs : FS) (p c : String), fs p = some c →
      (render_templates srcFS tdir obase scaffold ctx false fs).1 p = some c) := by
  constructor
  · intro srcFS store tdir obase ctx fs f destRel h1 h2
    unfold processEntry
    rw [h1]
    simp [h2]
  · intro srcFS tdir obase scaffold ctx fs p c hp
    exact render_templates_no_overwrite_preserves srcFS tdir obase scaffold ctx fs p c hp

/-- Witness for C4: a destination file `out/data.txt` holding the
manual edit `edited` is skipped by the copy entry that targets it, and
a full render run leaves its bytes identical. -/
theorem C4_witness :
    processEntry srcFSPayload [] "/repo/templates" "out" Ctx.new false
        (FS.update FS.empty "out/data.txt" "edited") ⟨"data.txt", "data.txt"⟩
      = Except.ok (FS.update FS.empty "out/data.txt" "edited")
    ∧ (render_templates srcFSPayload "/repo/templates" "out" scaffoldPre Ctx.new false
        (FS.update FS.empty "out/data.txt" "edited")).1 "out/data.txt" = some "edited" :=
  ⟨C4_no_overwrite_skips_and_preserves.1 srcFSPayload [] "/repo/templates" "out"
      Ctx.new (FS.update FS.empty "out/data.txt" "edited") ⟨"data.txt", "data.txt"⟩
      "data.txt" rfl rfl,
    C4_no_overwrite_skips_and_preserves.2 srcFSPayload "/repo/templates" "out"
      scaffoldPre Ctx.new (FS.update FS.empty "out/data.txt" "edited")
      "out/data.txt" "edited" rfl⟩

/-- C1: the claim states the step order Resolve Source, Build Context,
Run Pre-Hook, Render, Run Post-Hook, so a pre-hook that exits non-zero
should abort the scaffold before any file is rendered.  In the code
(`process_scaffold`, lib.rs lines 350-369) `render_templates` is called
before the pre-hook, contradicting the code's own "Pre-Generation Hook"
naming: on a scaffold whose pre-hook fails, the scaffold does abort
with the hook error, but the output file `out/data.txt` has already
been written with the copied payload. -/
theorem C1_prehook_runs_after_render :
    (process_scaffold extHookFail srcFSPayload scaffoldPre "P" "out" false FS.empty).2
        = .error "Hook script failed"
    ∧ (process_scaffold extHookFail srcFSPayload scaffoldPre "P" "out" false FS.empty).1
        "out/data.txt" = some "payload" :=
  ⟨rfl, rfl⟩

/-- C3: the claim states that for a remote scaffold the directory
recorded for cleanup is the temporary root allocated for the clone, so
that after cleanup the temporary root no longer exists.  The code
(`process_scaffold`, lib.rs lines 324-334 and 371-375) records
`tempRoot/<scaffold name>` — the cloned subdirectory — instead: here the
remote scaffold named `s` with temporary root `/tmp/t` records
`/tmp/t/s`, which differs from the temporary root, and cleaning up the
recorded directory leaves `/tmp/t` on disk. -/
theorem C3_cleanup_leaves_temp_root :
    (process_scaffold extRemote FS.empty scaffoldRemote "P" "out" false FS.empty).2
        = .ok (some "/tmp/t/s")
    ∧ ("/tmp/t/s" : String) ≠ extRemote.tempRoot
    ∧ clean_up_persistent_dirs ["/tmp/t", "/tmp/t/s"] ["/tmp/t/s"] = (["/tmp/t"], none) :=
  ⟨rfl, by decide, rfl⟩

/-- C2 counterexample: both a CLI project name (`CLIProject`, differing
from the built-in default) and a configuration project name
(`ConfigProject`) are present, yet the effective project name computed
by the run (lib.rs lines 30-35) is the CLI value, not the
configuration value as the claim states. -/
theorem C2_counterexample_cli_wins :
    argsCli.project_name = "CLIProject"
    ∧ (configNamed.project.bind fun p => p.name) = some "ConfigProject"
    ∧ (effectiveSettings argsCli configNamed).1 = "CLIProject"
    ∧ (effectiveSettings argsCli configNamed).1 ≠ "ConfigProject" :=
  ⟨rfl, rfl, rfl, by decide⟩

/-- C2 (amended): a CLI value that differs from its built-in default is
first copied into the configuration and therefore wins; the
configuration value is effective only when the CLI value equals the
default, and the CLI value is the fallback when the configuration does
not set the field.  This holds for the project name, the output
directory and the overwrite flag. -/
theorem C2_amended_cli_overrides_config (args : Args) (config : Config) :
    (effectiveSettings args config).1
      = (if args.project_name = DEFAULT_PROJECT_NAME
          then (config.project.bind fun p => p.name).getD args.project_name
          else args.project_name)
    ∧ (effectiveSettings args config).2.1
      = (if args.output = DEFAULT_OUTPUT
          then (config.project.bind fun p => p.output).getD args.output
          else args.output)
    ∧ (effectiveSettings args config).2.2
      = (if args.overwrite = DEFAULT_OVERWRITE
          then (config.project.bind fun p => p.overwrite).getD args.overwrite
          else args.overwrite) := by
  rcases config with ⟨proj, scaffolds⟩
  rcases proj with _ | ⟨n, o, w⟩ <;>
    by_cases h1 : args.project_name = DEFAULT_PROJECT_NAME <;>
    by_cases h2 : args.output = DEFAULT_OUTPUT <;>
    by_cases h3 : args.overwrite = DEFAULT_OVERWRITE <;>
    simp [effectiveSettings, overwrite_project_settings_with_args, get_project_name,
      get_output_directory, get_overwrite, h1, h2, h3]

/-- C7: when registration of any template entry fails, the whole render
step fails with that error before any file entry is processed, and the
output filesystem is exactly the input filesystem (no destination file
written or modified). -/
theorem C7_registration_failure_state_unchanged (srcFS : FS)
    (templatesDir outputBase : String) (scaffold : Scaffold) (ctx : Ctx)
    (overwrite : Bool) (fs : FS) (e : String)
    (h : addTemplates srcFS templatesDir scaffold.template.files = .error e) :
    render_templates srcFS templatesDir outputBase scaffold ctx overwrite fs
      = (fs, some e) := by
  unfold render_templates
  rw [h]

/-- Witness for C7: the scaffold whose only template file contains an
unclosed variable block fails registration, and rendering it returns
the untouched filesystem together with the syntax error. -/
theorem C7_witness :
    render_templates srcFSBroken "/r/templates" "out" scaffoldBroken Ctx.new false FS.empty
      = (FS.empty, some "unclosed variable block") :=
  C7_registration_failure_state_unchanged srcFSBroken "/r/templates" "out"
    scaffoldBroken Ctx.new false FS.empty "unclosed variable block" rfl

/-- C5: the destination path of a file entry is computed at render time
by substituting the variable context into the `dest` template with the
very same token substitution (`renderToks`) used for template bodies
(`one_off` is parse followed by `renderToks`); a `dest` carrying two
distinct placeholders resolves with both substituted, and the result is
independent of the order in which the two variables were inserted into
the context. -/
theorem C5_dest_substitution_order_independent (dest a x b y cl : String)
    (vx vy : Value) (ctx0 : Ctx)
    (hparse : parseTemplate dest
      = Except.ok [Tok.lit a, Tok.var x, Tok.lit b, Tok.var y, Tok.lit cl])
    (hxy : x ≠ y) :
    one_off dest (Ctx.insert y vy (Ctx.insert x vx ctx0))
        = Except.ok (a ++ vx.render ++ b ++ vy.render ++ cl)
    ∧ one_off dest (Ctx.insert x vx (Ctx.insert y vy ctx0))
        = Except.ok (a ++ vx.render ++ b ++ vy.render ++ cl)
    ∧ renderToks [Tok.lit a, Tok.var x, Tok.lit b, Tok.var y, Tok.lit cl]
          (Ctx.insert y vy (Ctx.insert x vx ctx0))
        = one_off dest (Ctx.insert y vy (Ctx.insert x vx ctx0)) := by
  have hyx : y ≠ x := Ne.symm hxy
  unfold one_off
  rw [hparse]
  refine ⟨?_, ?_, rfl⟩ <;>
    simp [renderToks, Ctx.lookup, Ctx.insert, hxy, hyx, Except.map, String.append_assoc]

/-- Witness for C5: the destination template with placeholders `x` and
`y` resolves to the same path whichever of the two variables is
declared first. -/
theorem C5_witness :
    one_off destTwoVars
        (Ctx.insert "y" (Value.str "B") (Ctx.insert "x" (Value.str "A") Ctx.new))
      = Except.ok "preA-Bpost"
    ∧ one_off destTwoVars
        (Ctx.insert "x" (Value.str "A") (Ctx.insert "y" (Value.str "B") Ctx.new))
      = Except.ok "preA-Bpost" :=
  ⟨(C5_dest_substitution_order_independent destTwoVars "pre" "x" "-" "y" "post"
      (Value.str "A") (Value.str "B") Ctx.new (by decide) (by decide)).1,
    (C5_dest_substitution_order_independent destTwoVars "pre" "x" "-" "y" "post"
      (Value.str "A") (Value.str "B") Ctx.new (by decide) (by decide)).2.1⟩

/-- C6: a file entry is dispatched on the `.tera` suffix of its source
relative path.  Without the suffix the entry is copied so that the
destination bytes equal the source bytes, whatever the content is
(placeholder-like substrings included, since the copy branch never
consults the template engine); with the suffix the entry is rendered
through the engine, the written bytes being `renderToks` output. -/
theorem C6_dispatch_on_template_suffix (srcFS : FS)
    (store : List (String × List Tok)) (tdir obase : String) (ctx : Ctx)
    (overwrite : Bool) (fs : FS) (f : TemplateFile) (destRel content rendered : String)
    (toks : List Tok) :
    (strEndsWith f.src ".tera" = false →
      one_off f.dest ctx = Except.ok destRel →
      ((fs (pathJoin obase destRel)).isSome && !overwrite) = false →
      srcFS (pathJoin tdir f.src) = some content →
      processEntry srcFS store tdir obase ctx overwrite fs f
        = Except.ok (FS.update fs (pathJoin obase destRel) content))
    ∧ (strEndsWith f.src ".tera" = true →
      one_off f.dest ctx = Except.ok destRel →
      ((fs (pathJoin obase destRel)).isSome && !overwrite) = false →
      lookupStore (renderKey f.src) store = some toks →
      renderToks toks ctx = Except.ok rendered →
      processEntry srcFS store tdir obase ctx overwrite fs f
        = Except.ok (FS.update fs (pathJoin obase destRel) rendered)) := by
  constructor
  · intro hsuf hdest hskip hsrc
    unfold processEntry
    rw [hdest]
    simp [hskip, hsuf, hsrc]
  · intro hsuf hdest hskip hstore hrender
    unfold processEntry
    rw [hdest]
    simp [hskip, hsuf, hstore, hrender]

/-- Witness for C6: the plain entry `notes.txt`, whose content contains
a placeholder-like substring, is copied byte-identically, while the
template entry `greet.tera` is written with the engine's rendering. -/
theorem C6_witness :
    processEntry srcFSMixed [] "/repo/templates" "out" Ctx.new false FS.empty
        ⟨"notes.txt", "notes.txt"⟩
      = Except.ok (FS.update FS.empty "out/notes.txt" "dear \x7b\x7b project_name \x7d\x7d")
    ∧ processEntry srcFSMixed [("greet.tera", [Tok.lit "hi ", Tok.var "project_name"])]
        "/repo/templates" "out"
        (Ctx.insert "project_name" (Value.str "P") Ctx.new) false FS.empty
        ⟨"greet.tera", "greet.txt"⟩
      = Except.ok (FS.update FS.empty "out/greet.txt" "hi P") :=
  ⟨(C6_dispatch_on_template_suffix srcFSMixed [] "/repo/templates" "out" Ctx.new
      false FS.empty ⟨"notes.txt", "notes.txt"⟩ "notes.txt"
      "dear \x7b\x7b project_name \x7d\x7d" "" []).1 rfl rfl rfl rfl,
    (C6_dispatch_on_template_suffix srcFSMixed
      [("greet.tera", [Tok.lit "hi ", Tok.var "project_name"])] "/repo/templates"
      "out" (Ctx.insert "project_name" (Value.str "P") Ctx.new) false FS.empty
      ⟨"greet.tera", "greet.txt"⟩ "greet.txt" "" "hi P"
      [Tok.lit "hi ", Tok.var "project_name"]).2 rfl rfl rfl rfl rfl⟩

theorem ctx_foldl_insert (vars : List (String × Value)) :
    ∀ ctx : Ctx,
      vars.foldl (fun c kv => Ctx.insert kv.1 kv.2 c) ctx = vars.reverse ++ ctx := by
  induction vars with
  | nil => intro ctx; simp
  | cons kv rest ih =>
    intro ctx
    simp [List.foldl_cons, ih (Ctx.insert kv.1 kv.2 ctx), Ctx.insert]

theorem ctx_lookup_append_some {k : String} {v : Value} {l1 : Ctx} (l2 : Ctx)
    (h : Ctx.lookup k l1 = some v) : Ctx.lookup k (l1 ++ l2) = some v := by
  induction l1 with
  | nil => cases h
  | cons kv rest ih =>
    obtain ⟨k1, v1⟩ := kv
    rw [List.cons_append]
    by_cases hk : k1 = k
    · simp only [Ctx.lookup, if_pos hk] at h ⊢
      exact h
    · simp only [Ctx.lookup, if_neg hk] at h ⊢
      exact ih h

theorem ctx_lookup_append_none {k : String} {l1 : Ctx} (l2 : Ctx)
    (h : Ctx.lookup k l1 = none) : Ctx.lookup k (l1 ++ l2) = Ctx.lookup k l2 := by
  induction l1 with
  | nil => rfl
  | cons kv rest ih =>
    obtain ⟨k1, v1⟩ := kv
    rw [List.cons_append]
    by_cases hk : k1 = k
    · simp only [Ctx.lookup, if_pos hk] at h
      cases h
    · simp only [Ctx.lookup, if_neg hk] at h ⊢
      exact ih h

theorem ctx_lookup_nodup_mem {k : String} {v : Value} {l : Ctx}
    (hnd : (l.map Prod.fst).Nodup) (hm : (k, v) ∈ l) : Ctx.lookup k l = some v := by
  induction l with
  | nil => cases hm
  | cons kv rest ih =>
    unfold Ctx.lookup
    rcases List.mem_cons.mp hm with heq | hmem
    · rw [← heq]
      simp
    · have hk : k ∈ rest.map Prod.fst := List.mem_map.mpr ⟨(k, v), hmem, rfl⟩
      have hne : kv.1 ≠ k := by
        intro h
        exact (List.nodup_cons.mp (by simpa using hnd)).1 (h ▸ hk)
      rw [if_neg hne]
      exact ih (List.nodup_cons.mp (by simpa using hnd)).2 hmem

theorem ctx_lookup_not_mem {k : String} {l : Ctx}
    (h : ∀ kv ∈ l, kv.1 ≠ k) : Ctx.lookup k l = none := by
  induction l with
  | nil => rfl
  | cons kv rest ih =>
    unfold Ctx.lookup
    rw [if_neg (h kv (List.mem_cons_self kv rest))]
    exact ih (fun kv1 hm => h kv1 (List.mem_cons_of_mem kv hm))

/-- C8: the variable context is `project_name` inserted first, every
declared variable folded in afterwards, and lookup obeys last writer
wins: a declared variable literally named `project_name` (unique among
the declared names, as in a map) shadows the fixed project name, and
when no declared variable carries that name the context maps
`project_name` to the effective project name.  With no declared
variables the context is exactly the singleton insertion. -/
theorem C8_declared_variables_shadow_project_name (pn : String)
    (vars : List (String × Value)) (v : Value) :
    (Ctx.lookup "project_name" (buildContext pn none) = some (Value.str pn))
    ∧ ((vars.map Prod.fst).Nodup → ("project_name", v) ∈ vars →
        Ctx.lookup "project_name" (buildContext pn (some vars)) = some v)
    ∧ ((∀ kv ∈ vars, kv.1 ≠ "project_name") →
        Ctx.lookup "project_name" (buildContext pn (some vars)) = some (Value.str pn)) := by
  have hbuild : buildContext pn (some vars)
      = vars.reverse ++ [("project_name", Value.str pn)] := by
    unfold buildContext
    exact ctx_foldl_insert vars _
  refine ⟨rfl, ?_, ?_⟩
  · intro hnd hm
    rw [hbuild]
    apply ctx_lookup_append_some
    apply ctx_lookup_nodup_mem
    · rw [List.map_reverse]
      exact List.nodup_reverse.mpr hnd
    · exact List.mem_reverse.mpr hm
  · intro hnone
    rw [hbuild]
    rw [ctx_lookup_append_none _ (ctx_lookup_not_mem
      (fun kv hm => hnone kv (List.mem_reverse.mp hm)))]
    rfl

/-- Witness for C8: a scaffold declaring `project_name = "shadow"`
yields a context whose `project_name` is the declared value, while a
scaffold declaring only `env` keeps the fixed project name `P`. -/
theorem C8_witness :
    Ctx.lookup "project_name"
        (buildContext "P" (some [("project_name", Value.str "shadow")]))
      = some (Value.str "shadow")
    ∧ Ctx.lookup "project_name" (buildContext "P" (some [("env", Value.str "dev")]))
      = some (Value.str "P") :=
  ⟨(C8_declared_variables_shadow_project_name "P"
      [("project_name", Value.str "shadow")] (Value.str "shadow")).2.1
      (by decide) (by decide),
    (C8_declared_variables_shadow_project_name "P"
      [("env", Value.str "dev")] (Value.str "P")).2.2 (by decide)⟩

/-- C9: the lookup key computed at registration equals the key computed
at render time; when the source relative path starts with `templates/`
the key is the path with that single leading prefix stripped
(prepending the prefix to the key restores the path), and otherwise the
key is the path unchanged. -/
theorem C9_registration_and_render_keys_agree (src : String) :
    registrationKey src = renderKey src
    ∧ (strStartsWith src "templates/" = true →
        "templates/" ++ registrationKey src = src)
    ∧ (strStartsWith src "templates/" = false → registrationKey src = src) := by
  refine ⟨rfl, ?_, ?_⟩
  · intro h
    have hpre : ("templates/" : String).data <+: src.data := by
      unfold strStartsWith at h
      exact List.isPrefixOf_iff_prefix.mp h
    obtain ⟨t, ht⟩ := hpre
    apply String.ext
    rw [String.data_append]
    unfold registrationKey
    rw [if_pos h]
    show ("templates/" : String).data
        ++ (src.data.drop (("templates/" : String).data.length)) = src.data
    rw [← ht, List.drop_left]
  · intro h
    unfold registrationKey
    rw [if_neg (by simp [h])]

/-- Witness for C9: the key of `templates/app.conf.tera` is
`app.conf.tera`; stripping removes a single leading prefix, so the key
of `templates/templates/x.tera` is `templates/x.tera`; a path without
the prefix is its own key. -/
theorem C9_witness :
    ("templates/" ++ registrationKey "templates/app.conf.tera"
      = "templates/app.conf.tera")
    ∧ ("templates/" ++ registrationKey "templates/templates/x.tera"
      = "templates/templates/x.tera")
    ∧ registrationKey "kind_config.yaml.tera" = "kind_config.yaml.tera" :=
  ⟨(C9_registration_and_render_keys_agree "templates/app.conf.tera").2.1 (by decide),
    (C9_registration_and_render_keys_agree "templates/templates/x.tera").2.1 (by decide),
    (C9_registration_and_render_keys_agree "kind_config.yaml.tera").2.2 (by decide)⟩

theorem run_loop_first_error (e : String)
    (rest : List (Except String (Option String))) :
    ∀ (pre : List (Except String (Option String))),
      (∀ o ∈ pre, ∃ x, o = Except.ok x) →
      ∀ (disk acc : List String),
        (run_loop disk acc (pre ++ Except.error e :: rest)).2 = Except.error e
        ∧ ∀ d : String, (d ∈ disk ∨ Except.ok (some d) ∈ pre) →
            d ∈ (run_loop disk acc (pre ++ Except.error e :: rest)).1 := by
  intro pre
  induction pre with
  | nil =>
    intro _ disk acc
    refine ⟨rfl, ?_⟩
    intro d hd
    rcases hd with hd | hd
    · exact hd
    · cases hd
  | cons o os ih =>
    intro hok disk acc
    obtain ⟨x, hx⟩ := hok o (List.mem_cons_self o os)
    subst hx
    have hok1 : ∀ o1 ∈ os, ∃ x, o1 = Except.ok x :=
      fun o1 h1 => hok o1 (List.mem_cons_of_mem _ h1)
    cases x with
    | none =>
      rw [List.cons_append]
      show (run_loop disk acc (os ++ Except.error e :: rest)).2 = Except.error e ∧ _
      refine ⟨(ih hok1 disk acc).1, ?_⟩
      intro d hd
      apply (ih hok1 disk acc).2
      rcases hd with hd | hd
      · exact Or.inl hd
      · rcases List.mem_cons.mp hd with hd1 | hd1
        · cases hd1
        · exact Or.inr hd1
    | some d0 =>
      rw [List.cons_append]
      show (run_loop (d0 :: disk) (acc ++ [d0]) (os ++ Except.error e :: rest)).2
            = Except.error e ∧ _
      refine ⟨(ih hok1 (d0 :: disk) (acc ++ [d0])).1, ?_⟩
      intro d hd
      apply (ih hok1 (d0 :: disk) (acc ++ [d0])).2
      rcases hd with hd | hd
      · exact Or.inl (List.mem_cons_of_mem d0 hd)
      · rcases List.mem_cons.mp hd with hd1 | hd1
        · left
          injection hd1 with hd2
          injection hd2 with hd3
          rw [hd3]
          exact List.mem_cons_self d0 disk
        · exact Or.inr hd1

/-- C10: when some scaffold fails, `run` returns that first error
immediately and never invokes the cleanup of disposable directories:
every directory already on disk stays on disk, and in particular every
disposable directory collected from an earlier, successfully completed
scaffold remains.  (Disposable directories can thus be deleted only on
a run in which every scaffold succeeds.) -/
theorem C10_scaffold_error_skips_cleanup (e : String)
    (pre rest : List (Except String (Option String))) (disk : List String)
    (hok : ∀ o ∈ pre, ∃ x, o = Except.ok x) :
    (run (pre ++ Except.error e :: rest) disk).2 = Except.error e
    ∧ (∀ d ∈ disk, d ∈ (run (pre ++ Except.error e :: rest) disk).1)
    ∧ (∀ d : String, Except.ok (some d) ∈ pre →
        d ∈ (run (pre ++ Except.error e :: rest) disk).1) := by
  have h := run_loop_first_error e rest pre hok disk []
  unfold run
  rcases hrl : run_loop disk [] (pre ++ Except.error e :: rest) with ⟨disk1, r⟩
  rw [hrl] at h
  have hr : r = Except.error e := h.1
  subst hr
  exact ⟨rfl, fun d hd => h.2 d (Or.inl hd), fun d hd => h.2 d (Or.inr hd)⟩

/-- Witness for C10: a run whose first scaffold succeeds with the
disposable clone directory `/tmp/t/s` and whose second scaffold fails
returns the failure, and the clone directory is still on disk. -/
theorem C10_witness :
    (run [Except.ok (some "/tmp/t/s"), Except.error "boom"] []).2 = Except.error "boom"
    ∧ "/tmp/t/s" ∈ (run [Except.ok (some "/tmp/t/s"), Except.error "boom"] []).1 :=
  have h := C10_scaffold_error_skips_cleanup "boom" [Except.ok (some "/tmp/t/s")] [] []
    (by
      intro o ho
      rw [List.mem_singleton] at ho
      exact ⟨some "/tmp/t/s", ho⟩)
  ⟨h.1, h.2.2 "/tmp/t/s" (List.mem_singleton.mpr rfl)⟩

end Scaficionado
